import Mathlib

/-!
Shallow embedding of the notification-center core (the signal-based
`NotificationsComponent` state machine and the `NotificationService`
gateway) and proofs of the specification claims about it.

Conventions of the embedding:
* JS timestamps (`new Date(x).getTime()`, `Date.now()`) are modelled as `Int`.
* Optional / possibly-absent JS fields are modelled as `Option`.
* JS truthiness of the relevant values (`x || fallback` on strings, booleans
  and numbers) is modelled field-by-field (`jsOrStr`, `Option.getD false`,
  zero-is-falsy for numbers).
* `Array.prototype.sort(cmp)` with comparator `(a, b) => b.date - a.date`
  is modelled by the stable `List.mergeSort` with the boolean relation
  `dateDescLe a b = (b.date <= a.date)`.
* Network activity is modelled by an explicit `Effect` list emitted by each
  operation; the error callback that each subscription installs is modelled
  as a separate `... OnFailure` effect list.
-/

/-- Notification `type` enumeration (`'ticket' | 'system' | 'user' | 'payment'`). -/
inductive NType where
  | ticket
  | system
  | user
  | payment
deriving DecidableEq, Repr

/-- Notification `priority` enumeration (`'low' | 'medium' | 'high' | 'urgent'`). -/
inductive NPriority where
  | low
  | medium
  | high
  | urgent
deriving DecidableEq, Repr

/-- A raw notification as it arrives in the payload array (`data: any[]`):
`id`, `read`, `type` and `priority` may be absent. -/
structure RawNotification where
  id : Option String
  message : String
  date : Int
  read : Option Bool
  ntype : Option NType
  nprio : Option NPriority
deriving DecidableEq, Repr

/-- A processed notification as stored in the controller state: all modelled
fields present after `processNotifications` filled the defaults. -/
structure Notification where
  id : String
  message : String
  date : Int
  read : Bool
  ntype : NType
  nprio : NPriority
deriving DecidableEq, Repr

/-- The controller's `NotificationState`. -/
structure NotificationState where
  notifications : List Notification
  loading : Bool
  error : Option String
  lastFetch : Option Int
  unreadCount : Nat
deriving DecidableEq, Repr

/-- The initial signal value: empty list, not loading, no error, no fetch yet. -/
def initialState : NotificationState :=
  { notifications := [], loading := false, error := none, lastFetch := none, unreadCount := 0 }

/-- Effects (network activity) emitted by controller operations. -/
inductive Effect where
  | httpGetAll
  | apiMarkRead (id : String)
  | apiMarkAllRead
  | apiDelete (id : String)
  | refreshSilent
deriving DecidableEq, Repr

/-- JS `v || fallback` on a possibly-absent string: the empty string is falsy. -/
def jsOrStr (v : Option String) (fallback : String) : String :=
  match v with
  | some s => if s = "" then fallback else s
  | none => fallback

/-- JS `s.includes(sub)` helper: does `needle` match at the head of `hay`? -/
def matchesAt : List Char → List Char → Bool
  | [], _ => true
  | _ :: _, [] => false
  | n :: ns, h :: hs => n == h && matchesAt ns hs

/-- JS `s.includes(sub)` over character lists: substring occurrence. -/
def containsSub : List Char → List Char → Bool
  | hay, needle =>
    matchesAt needle hay ||
      match hay with
      | [] => false
      | _ :: hs => containsSub hs needle

/-- JS `s.includes(sub)` on strings. -/
def strIncludes (s sub : String) : Bool :=
  containsSub s.data sub.data

/-- JS `s.toLowerCase()` (ASCII fragment), computed characterwise. -/
def jsToLower (s : String) : String :=
  String.mk (s.data.map Char.toLower)

/-- JS `s.trim()` on the whitespace characters of the embedding: strip
leading and trailing whitespace. -/
def jsTrim (s : String) : String :=
  String.mk (((s.data.dropWhile Char.isWhitespace).reverse.dropWhile
    Char.isWhitespace).reverse)

/-- `determineNotificationType`: keyword heuristics on the lowercased message
(`'ticket'` before `'payment'` before `'user'`, else `'system'`). -/
def determineNotificationType (message : String) : NType :=
  let m := jsToLower message
  if strIncludes m "ticket" then NType.ticket
  else if strIncludes m "payment" then NType.payment
  else if strIncludes m "user" then NType.user
  else NType.system

/-- `determineNotificationPriority`: keyword heuristics on the lowercased
message (`'urgent'`/`'critical'`, then `'important'`/`'ticket'`, then
`'reminder'`, else `'low'`). -/
def determineNotificationPriority (message : String) : NPriority :=
  let m := jsToLower message
  if strIncludes m "urgent" || strIncludes m "critical" then NPriority.urgent
  else if strIncludes m "important" || strIncludes m "ticket" then NPriority.high
  else if strIncludes m "reminder" then NPriority.medium
  else NPriority.low

/-- The per-element map inside `processNotifications`: spread the raw value,
default the `id` (`notification.id || this.generateId()`), default `read`
(`notification.read || false`), and (unconditionally) assign `type` and
`priority` from the heuristics. `genId i` stands for the value produced by
`this.generateId()` for the `i`-th element. -/
def processOne (genId : Nat → String) (i : Nat) (raw : RawNotification) : Notification :=
  { id := jsOrStr raw.id (genId i)
    message := raw.message
    date := raw.date
    read := raw.read.getD false
    ntype := determineNotificationType raw.message
    nprio := determineNotificationPriority raw.message }

/-- The sort comparator `(a, b) => new Date(b.date).getTime() - new Date(a.date).getTime()`
as a boolean "a may come before b" relation: descending by date. -/
def dateDescLe (a b : Notification) : Bool :=
  b.date ≤ a.date

/-- `MAX_NOTIFICATIONS` configuration constant. -/
def MAX_NOTIFICATIONS : Nat := 50

/-- The list pipeline of `processNotifications`: map with defaults and derived
fields, sort newest-first, truncate to `MAX_NOTIFICATIONS`. -/
def processList (genId : Nat → String) (data : List RawNotification) : List Notification :=
  ((data.enum.map (fun p => processOne genId p.1 p.2)).mergeSort dateDescLe).take
    MAX_NOTIFICATIONS

/-- `notifications.filter(n => !n.read).length`. -/
def countUnread (l : List Notification) : Nat :=
  (l.filter (fun n => !n.read)).length

/-- `processNotifications`: process the payload array and replace the state in
one `updateState` call (`notifications`, `unreadCount`, `lastFetch := now`,
`error := null`, `loading := false`). -/
def processNotifications (genId : Nat → String) (now : Int) (data : List RawNotification)
    (s : NotificationState) : NotificationState :=
  let processed := processList genId data
  { s with
    notifications := processed
    unreadCount := countUnread processed
    lastFetch := some now
    error := none
    loading := false }

/-- `markAsRead(notification)`: map over the list toggling `read` on id match
(`n.id === notification.id ? { ...n, read: !n.read } : n`), recompute
`unreadCount`, update the state; the gateway call is emitted as an effect. -/
def markAsRead (target : Notification) (s : NotificationState) :
    NotificationState × List Effect :=
  let updatedNotifications :=
    s.notifications.map (fun n => if n.id == target.id then { n with read := !n.read } else n)
  ({ s with
      notifications := updatedNotifications
      unreadCount := countUnread updatedNotifications },
    [Effect.apiMarkRead target.id])

/-- The error callback installed by `markAsRead`: `this.fetchNotifications(true)`. -/
def markAsReadOnFailure : List Effect :=
  [Effect.refreshSilent]

/-- `markAllAsRead()`: set every `read` to `true`, set `unreadCount := 0`. -/
def markAllAsRead (s : NotificationState) : NotificationState × List Effect :=
  let updatedNotifications := s.notifications.map (fun n => { n with read := true })
  ({ s with
      notifications := updatedNotifications
      unreadCount := 0 },
    [Effect.apiMarkAllRead])

/-- The error callback installed by `markAllAsRead`: `this.fetchNotifications(true)`. -/
def markAllAsReadOnFailure : List Effect :=
  [Effect.refreshSilent]

/-- `deleteNotification(notification)`: keep the entries whose id differs,
recompute `unreadCount`, update the state; the gateway call is an effect. -/
def deleteNotification (target : Notification) (s : NotificationState) :
    NotificationState × List Effect :=
  let updatedNotifications := s.notifications.filter (fun n => !(n.id == target.id))
  ({ s with
      notifications := updatedNotifications
      unreadCount := countUnread updatedNotifications },
    [Effect.apiDelete target.id])

/-- The error callback installed by `deleteNotification`: `this.fetchNotifications(true)`. -/
def deleteNotificationOnFailure : List Effect :=
  [Effect.refreshSilent]

/-- The synchronous head of `fetchNotifications(silent)`: with no token it sets
the error state and returns without any request; with a token it toggles the
loading state (when not silent) and issues the network call. -/
def fetchNotificationsStart (token : Option String) (silent : Bool) (s : NotificationState) :
    NotificationState × List Effect :=
  match token with
  | none => ({ s with error := some "Authentication required", loading := false }, [])
  | some _ =>
    ((if silent then s else { s with loading := true, error := none }), [Effect.httpGetAll])

/-- The unread-count invariant of the spec. -/
def UnreadInv (s : NotificationState) : Prop :=
  s.unreadCount = countUnread s.notifications

/-- Helper: marking everything read leaves nothing unread. -/
theorem countUnread_setAllRead (l : List Notification) :
    countUnread (l.map (fun n => { n with read := true })) = 0 := by
  induction l with
  | nil => rfl
  | cons a l ih =>
    simp only [countUnread, List.map_cons, List.filter, Bool.not_true] at ih ⊢
    exact ih

/-- Claim C1: after every state-mutating operation (refresh success processing,
markAsRead, markAllAsRead, deleteNotification), `unreadCount` equals the number
of stored notifications whose `read` field is false. -/
theorem C1_unread_invariant (genId : Nat → String) (now : Int)
    (data : List RawNotification) (target : Notification) (s : NotificationState) :
    UnreadInv (processNotifications genId now data s) ∧
    UnreadInv (markAsRead target s).1 ∧
    UnreadInv (markAllAsRead s).1 ∧
    UnreadInv (deleteNotification target s).1 := by
  refine ⟨rfl, rfl, ?_, rfl⟩
  simp [markAllAsRead, UnreadInv, countUnread_setAllRead]

/-- Claim C2: after every successful refresh the stored list has length at most
`MAX_NOTIFICATIONS = 50` and is sorted by date descending. -/
theorem C2_sorted_and_capped (genId : Nat → String) (now : Int)
    (data : List RawNotification) (s : NotificationState) :
    (processNotifications genId now data s).notifications.length ≤ 50 ∧
    (processNotifications genId now data s).notifications.Pairwise
      (fun a b => b.date ≤ a.date) := by
  constructor
  · simp [processNotifications, processList, MAX_NOTIFICATIONS]
  · have htrans : ∀ (a b c : Notification),
        dateDescLe a b → dateDescLe b c → dateDescLe a c := by
      intro a b c hab hbc
      simp only [dateDescLe, decide_eq_true_eq] at *
      omega
    have htotal : ∀ (a b : Notification), dateDescLe a b || dateDescLe b a := by
      intro a b
      simp only [dateDescLe, Bool.or_eq_true, decide_eq_true_eq]
      omega
    have hs := List.sorted_mergeSort htrans htotal
      ((data.enum.map (fun p => processOne genId p.1 p.2)))
    have hs' : ((data.enum.map (fun p => processOne genId p.1 p.2)).mergeSort
        dateDescLe).Pairwise (fun a b => b.date ≤ a.date) := by
      refine hs.imp ?_
      intro a b h
      simpa [dateDescLe] using h
    exact List.Pairwise.sublist (List.take_sublist _ _) hs'

/-- The gateway's (`NotificationService`) mutable fields relevant to caching:
`notificationCacheSubject.value`, `lastFetchTime`, `notificationCountSubject.value`. -/
structure GatewayState where
  cache : List RawNotification
  lastFetchTime : Int
  notificationCount : Nat
deriving DecidableEq, Repr

/-- The gateway state at construction: empty cache, `lastFetchTime = 0`, count 0. -/
def initialGateway : GatewayState :=
  { cache := [], lastFetchTime := 0, notificationCount := 0 }

/-- `cacheTimeout` configuration constant (30 seconds, in milliseconds). -/
def cacheTimeout : Int := 30000

/-- `maxRetries` configuration constant. -/
def maxRetries : Nat := 3

/-- `shouldUseCache()`: `(Date.now() - this.lastFetchTime) < this.cacheTimeout`. -/
def shouldUseCache (now : Int) (g : GatewayState) : Bool :=
  now - g.lastFetchTime < cacheTimeout

/-- `cachedData.filter(n => !n.read).length` on raw cache entries
(JS truthiness of the possibly-absent `read` field). -/
def rawUnread (l : List RawNotification) : Nat :=
  (l.filter (fun n => !(n.read.getD false))).length

/-- How one `getAllNotifications` call is served: from the cache (with the
synthesized response) or by a network request. -/
inductive FetchRoute where
  | cached (items : List RawNotification) (unread : Nat)
  | network
deriving DecidableEq, Repr

/-- The routing decision at the head of `getAllNotifications(headers, filter)`:
serve from cache only when the cache is fresh, no filter was given and the
cached array is non-empty; otherwise issue the HTTP request. -/
def getAllNotificationsRoute (now : Int) (hasFilter : Bool) (g : GatewayState) : FetchRoute :=
  if shouldUseCache now g && !hasFilter && decide (g.cache.length > 0) then
    FetchRoute.cached g.cache (rawUnread g.cache)
  else
    FetchRoute.network

/-- The wire response shape `{responseData, success, unreadCount?}`. -/
structure NotificationResponse where
  responseData : List RawNotification
  success : Bool
  unreadCount : Option Nat
deriving DecidableEq, Repr

/-- The `tap` on a successful HTTP response: when `success !== false`, store
`responseData` in the cache, stamp `lastFetchTime := Date.now()`, and publish
`response.unreadCount || responseData.filter(n => !n.read).length`
(JS: a server count of 0 is falsy and falls back to the local count). -/
def onFetchSuccess (resp : NotificationResponse) (now : Int) (g : GatewayState) : GatewayState :=
  if resp.success then
    { cache := resp.responseData
      lastFetchTime := now
      notificationCount :=
        match resp.unreadCount with
        | some k => if k = 0 then rawUnread resp.responseData else k
        | none => rawUnread resp.responseData }
  else g

/-- A raw notification used as a concrete cache entry. -/
def rawCacheEx : RawNotification :=
  { id := some "7", message := "hello", date := 1, read := some false,
    ntype := none, nprio := none }

/-- Claim C3 counterexample: a first `listNotifications` success whose item set
is empty is cached, yet a second unfiltered call 500ms later (well within the
30s TTL) still issues a network request, because of the
`cachedData.length > 0` guard; the claim asserts the cached item set would be
returned without a network call. -/
theorem C3_counterexample :
    onFetchSuccess { responseData := [], success := true, unreadCount := none }
        100000 initialGateway =
      { cache := [], lastFetchTime := 100000, notificationCount := 0 } ∧
    (100500 : Int) - 100000 < cacheTimeout ∧
    getAllNotificationsRoute 100500 false
        { cache := [], lastFetchTime := 100000, notificationCount := 0 } =
      FetchRoute.network ∧
    FetchRoute.network ≠ FetchRoute.cached [] 0 := by
  refine ⟨rfl, by decide, rfl, by decide⟩

/-- Claim C3 (amended): an unfiltered `listNotifications` call within
`cacheTTL` of the last successful fetch returns the cached item set without a
network request provided the cached item set is non-empty; once `cacheTTL` has
elapsed (or the cache is empty), a network request is issued. -/
theorem C3_cache_amended (now : Int) (g : GatewayState) :
    (now - g.lastFetchTime < cacheTimeout → g.cache ≠ [] →
      getAllNotificationsRoute now false g = FetchRoute.cached g.cache (rawUnread g.cache)) ∧
    (cacheTimeout ≤ now - g.lastFetchTime →
      getAllNotificationsRoute now false g = FetchRoute.network) := by
  constructor
  · intro hfresh hne
    have hlen : 0 < g.cache.length := List.length_pos.mpr hne
    simp [getAllNotificationsRoute, shouldUseCache, hfresh, hlen]
  · intro hstale
    have : ¬ (now - g.lastFetchTime < cacheTimeout) := not_lt.mpr hstale
    simp [getAllNotificationsRoute, shouldUseCache, this]

/-- Witness for C3: concrete fresh-and-nonempty and stale instances. -/
theorem C3_cache_witness :
    getAllNotificationsRoute 100 false { cache := [rawCacheEx], lastFetchTime := 90, notificationCount := 1 } =
      FetchRoute.cached [rawCacheEx] 1 ∧
    getAllNotificationsRoute 999999 false { cache := [rawCacheEx], lastFetchTime := 90, notificationCount := 1 } =
      FetchRoute.network := by
  constructor
  · have h := (C3_cache_amended 100
      { cache := [rawCacheEx], lastFetchTime := 90, notificationCount := 1 }).1
      (by decide) (by simp [rawCacheEx])
    simpa [rawUnread, rawCacheEx] using h
  · exact (C3_cache_amended 999999
      { cache := [rawCacheEx], lastFetchTime := 90, notificationCount := 1 }).2 (by decide)

/-- The structured error built by `handleError` (`{message, code, status}`). -/
structure ErrorInfo where
  message : String
  code : String
  status : Int
deriving DecidableEq, Repr

/-- The two shapes of `HttpErrorResponse` distinguished by `handleError`:
`error.error instanceof ErrorEvent` (client-side/network) versus a
server-side response with an HTTP status. -/
inductive FailureKind where
  | clientSide (status : Int) (msg : String)
  | http (status : Int) (msg : String)
deriving DecidableEq, Repr

/-- The browser-storage token slots (`localStorage`/`sessionStorage` `token`). -/
structure TokenStore where
  localToken : Option String
  sessionToken : Option String
deriving DecidableEq, Repr

/-- `handleError`: classify the failure into an `ErrorInfo` and, on HTTP 401,
also remove the stored token from both storages. Returns the surfaced error
and the storage state after the handler ran. -/
def handleError (e : FailureKind) (t : TokenStore) : ErrorInfo × TokenStore :=
  match e with
  | FailureKind.clientSide st m =>
    ({ message := "Client Error: " ++ m, code := "CLIENT_ERROR", status := st }, t)
  | FailureKind.http st m =>
    if st = 400 then
      ({ message := "Bad Request: Please check your input", code := "BAD_REQUEST",
         status := st }, t)
    else if st = 401 then
      ({ message := "Unauthorized: Please login again", code := "UNAUTHORIZED",
         status := st },
       { localToken := none, sessionToken := none })
    else if st = 403 then
      ({ message := "Forbidden: You do not have permission", code := "FORBIDDEN",
         status := st }, t)
    else if st = 404 then
      ({ message := "Not Found: The requested resource was not found", code := "NOT_FOUND",
         status := st }, t)
    else if st = 408 then
      ({ message := "Request Timeout: The request took too long", code := "TIMEOUT",
         status := st }, t)
    else if st = 429 then
      ({ message := "Too Many Requests: Please slow down", code := "RATE_LIMIT",
         status := st }, t)
    else if st = 500 then
      ({ message := "Internal Server Error: Please try again later", code := "SERVER_ERROR",
         status := st }, t)
    else if st = 502 then
      ({ message := "Bad Gateway: Server is temporarily unavailable", code := "BAD_GATEWAY",
         status := st }, t)
    else if st = 503 then
      ({ message := "Service Unavailable: Please try again later",
         code := "SERVICE_UNAVAILABLE", status := st }, t)
    else if st = 504 then
      ({ message := "Gateway Timeout: The server took too long to respond",
         code := "GATEWAY_TIMEOUT", status := st }, t)
    else
      ({ message := "Server Error: " ++ toString st ++ " - " ++ m,
         code := "HTTP_" ++ toString st, status := st }, t)

/-- A concrete token store with both slots populated. -/
def tokensEx : TokenStore :=
  { localToken := some "tok", sessionToken := some "tok" }

/-- Claim C4 counterexample: HTTP 400 is classified as `BAD_REQUEST`, not as
the `HTTP_400` fallback the claim assigns to every status it does not list. -/
theorem C4_counterexample :
    (handleError (FailureKind.http 400 "oops") tokensEx).1.code = "BAD_REQUEST" ∧
    "BAD_REQUEST" ≠ "HTTP_" ++ toString (400 : Int) := by
  refine ⟨rfl, by decide⟩

/-- Claim C4 (amended): client-side failures map to `CLIENT_ERROR`; HTTP 400
maps to `BAD_REQUEST`; 401 maps to `UNAUTHORIZED` and clears both stored
tokens; 403/404/408/429 map to `FORBIDDEN`/`NOT_FOUND`/`TIMEOUT`/`RATE_LIMIT`;
500/502/503/504 map to `SERVER_ERROR`/`BAD_GATEWAY`/`SERVICE_UNAVAILABLE`/
`GATEWAY_TIMEOUT`; every other status maps to `HTTP_<status>`; only 401
touches the stored tokens. -/
theorem C4_classification_amended (t : TokenStore) (st : Int) (m : String) :
    ((handleError (FailureKind.clientSide st m) t).1.code = "CLIENT_ERROR" ∧
      (handleError (FailureKind.clientSide st m) t).2 = t) ∧
    (handleError (FailureKind.http 400 m) t).1.code = "BAD_REQUEST" ∧
    ((handleError (FailureKind.http 401 m) t).1.code = "UNAUTHORIZED" ∧
      (handleError (FailureKind.http 401 m) t).2 =
        { localToken := none, sessionToken := none }) ∧
    (handleError (FailureKind.http 403 m) t).1.code = "FORBIDDEN" ∧
    (handleError (FailureKind.http 404 m) t).1.code = "NOT_FOUND" ∧
    (handleError (FailureKind.http 408 m) t).1.code = "TIMEOUT" ∧
    (handleError (FailureKind.http 429 m) t).1.code = "RATE_LIMIT" ∧
    (handleError (FailureKind.http 500 m) t).1.code = "SERVER_ERROR" ∧
    (handleError (FailureKind.http 502 m) t).1.code = "BAD_GATEWAY" ∧
    (handleError (FailureKind.http 503 m) t).1.code = "SERVICE_UNAVAILABLE" ∧
    (handleError (FailureKind.http 504 m) t).1.code = "GATEWAY_TIMEOUT" ∧
    (st ∉ ([400, 401, 403, 404, 408, 429, 500, 502, 503, 504] : List Int) →
      (handleError (FailureKind.http st m) t).1.code = "HTTP_" ++ toString st ∧
      (handleError (FailureKind.http st m) t).2 = t) ∧
    (st ≠ 401 → (handleError (FailureKind.http st m) t).2 = t) := by
  refine ⟨⟨rfl, rfl⟩, rfl, ⟨rfl, rfl⟩, rfl, rfl, rfl, rfl, rfl, rfl, rfl, rfl, ?_, ?_⟩
  · intro hst
    simp only [List.mem_cons, List.not_mem_nil, or_false, not_or] at hst
    obtain ⟨h400, h401, h403, h404, h408, h429, h500, h502, h503, h504⟩ := hst
    simp [handleError, h400, h401, h403, h404, h408, h429, h500, h502, h503, h504]
  · intro h401
    by_cases h400 : st = 400
    · simp [handleError, h400]
    · by_cases h403 : st = 403
      · simp [handleError, h403]
      · by_cases h404 : st = 404
        · simp [handleError, h404]
        · by_cases h408 : st = 408
          · simp [handleError, h408]
          · by_cases h429 : st = 429
            · simp [handleError, h429]
            · by_cases h500 : st = 500
              · simp [handleError, h500]
              · by_cases h502 : st = 502
                · simp [handleError, h502]
                · by_cases h503 : st = 503
                  · simp [handleError, h503]
                  · by_cases h504 : st = 504
                    · simp [handleError, h504]
                    · simp [handleError, h400, h401, h403, h404, h408, h429, h500,
                        h502, h503, h504]

/-- Witness for C4: the fallback clause at the concrete unlisted status 418. -/
theorem C4_classification_witness :
    (handleError (FailureKind.http 418 "teapot") tokensEx).1.code =
      "HTTP_" ++ toString (418 : Int) ∧
    (handleError (FailureKind.http 418 "teapot") tokensEx).2 = tokensEx :=
  (C4_classification_amended tokensEx 418 "teapot").2.2.2.2.2.2.2.2.2.2.2.1 (by decide)

/-- An already-read notification used as the C5 failing input. -/
def readNotifEx : Notification :=
  { id := "1", message := "hello", date := 0, read := true,
    ntype := NType.system, nprio := NPriority.low }

/-- The state holding only `readNotifEx`, with a correct unread count of 0. -/
def readStateEx : NotificationState :=
  { notifications := [readNotifEx], loading := false, error := none,
    lastFetch := none, unreadCount := 0 }

/-- Claim C5 at the failing input: `markAsRead` on an already-read notification
does not leave the state unchanged — it toggles `read` back to `false` and
raises `unreadCount` to 1, while the gateway call it issues
(`markNotificationAsRead`) tells the server (and the service cache) that the
notification is read. -/
theorem C5_toggles_read :
    (markAsRead readNotifEx readStateEx).1.notifications =
      [{ id := "1", message := "hello", date := 0, read := false,
         ntype := NType.system, nprio := NPriority.low }] ∧
    (markAsRead readNotifEx readStateEx).1.unreadCount = 1 ∧
    (markAsRead readNotifEx readStateEx).1 ≠ readStateEx ∧
    (markAsRead readNotifEx readStateEx).2 = [Effect.apiMarkRead "1"] := by
  refine ⟨rfl, rfl, by decide, rfl⟩

/-- Helper: sorting a one-element list is the identity. -/
theorem mergeSort_single (a : Notification) (le : Notification → Notification → Bool) :
    List.mergeSort [a] le = [a] :=
  List.perm_singleton.mp (List.mergeSort_perm [a] le)

/-- Helper: the processing pipeline on a one-element payload. -/
theorem processList_single (genId : Nat → String) (raw : RawNotification) :
    processList genId [raw] = [processOne genId 0 raw] := by
  simp [processList, mergeSort_single, MAX_NOTIFICATIONS]

/-- A raw notification that carries server-provided `type` and `priority`
that differ from what the message heuristics produce. -/
def rawPay : RawNotification :=
  { id := some "1", message := "ticket payment", date := 5, read := some false,
    ntype := some NType.payment, nprio := some NPriority.low }

/-- A concrete stand-in for the `generateId()` results. -/
def genIdEx : Nat → String := fun i => "gen" ++ toString i

/-- Claim C6 counterexample: a payload element with server-provided
`type = payment` and `priority = low` comes out of refresh processing with
`type = ticket` and `priority = high` (derived from the message keywords),
so server-provided values are not preserved. -/
theorem C6_counterexample :
    (processNotifications genIdEx 0 [rawPay] initialState).notifications.map
        (fun n => (n.ntype, n.nprio)) =
      [(NType.ticket, NPriority.high)] ∧
    rawPay.ntype = some NType.payment ∧
    rawPay.nprio = some NPriority.low ∧
    (NType.ticket ≠ NType.payment ∧ NPriority.high ≠ NPriority.low) := by
  refine ⟨?_, rfl, rfl, by decide⟩
  rw [show (processNotifications genIdEx 0 [rawPay] initialState).notifications =
      processList genIdEx [rawPay] from rfl, processList_single]
  rfl

/-- Claim C6 (amended): during refresh processing, `type` and `priority` are
always derived from the case-insensitive message keyword heuristics,
overwriting any server-provided values. -/
theorem C6_overwrite_amended (genId : Nat → String) (now : Int)
    (data : List RawNotification) (s : NotificationState) (n : Notification)
    (hn : n ∈ (processNotifications genId now data s).notifications) :
    n.ntype = determineNotificationType n.message ∧
    n.nprio = determineNotificationPriority n.message := by
  have hn' : n ∈ processList genId data := hn
  have hms : n ∈ (data.enum.map (fun p => processOne genId p.1 p.2)).mergeSort dateDescLe :=
    List.mem_of_mem_take hn'
  have hmem : n ∈ data.enum.map (fun p => processOne genId p.1 p.2) :=
    List.mem_mergeSort.mp hms
  obtain ⟨p, _, hp⟩ := List.mem_map.mp hmem
  subst hp
  exact ⟨rfl, rfl⟩

/-- The processed form of `rawPay`. -/
def procPayEx : Notification :=
  { id := "1", message := "ticket payment", date := 5, read := false,
    ntype := NType.ticket, nprio := NPriority.high }

/-- Witness for C6: the amended claim at the concrete processed notification. -/
theorem C6_overwrite_witness :
    procPayEx.ntype = determineNotificationType procPayEx.message ∧
    procPayEx.nprio = determineNotificationPriority procPayEx.message := by
  refine C6_overwrite_amended genIdEx 0 [rawPay] initialState procPayEx ?_
  rw [show (processNotifications genIdEx 0 [rawPay] initialState).notifications =
      processList genIdEx [rawPay] from rfl, processList_single]
  exact List.mem_singleton.mpr (by rfl)

/-- The character `{`, written by code point to keep it out of string literals. -/
def openBraceChar : Char := Char.ofNat 123

/-- `data.split(braceChar)[0]`: the part of the string before the first
opening brace (the whole string when there is none). -/
def beforeBrace (s : String) : String :=
  String.mk (s.data.takeWhile (fun c => !(c == openBraceChar)))

/-- `getMessage(data)`: `'No message'` for an absent/empty message, otherwise
the trimmed part before the first opening brace, falling back to the raw
string when that trim yields the empty string. -/
def getMessage (data : String) : String :=
  if data = "" then "No message"
  else
    let cleanMessage := jsTrim (beforeBrace data)
    if cleanMessage = "" then data else cleanMessage

/-- Modelled from the spec sentence for C8 only (refinement reference): the
substring before the first opening brace, trimmed, falling back to the
original raw message when that yields an empty string. -/
def specGetMessage (data : String) : String :=
  let cleanMessage := jsTrim (beforeBrace data)
  if cleanMessage = "" then data else cleanMessage

/-- `isTicketNotification(message)`: lowercased message contains
`'new ticket'` or `'ticket'`. -/
def isTicketNotification (message : String) : Bool :=
  strIncludes (jsToLower message) "new ticket" || strIncludes (jsToLower message) "ticket"

/-- Claim C8 counterexample: on the empty message the code returns
`'No message'`, not the original raw message that the claim's fallback rule
prescribes. -/
theorem C8_counterexample :
    getMessage "" = "No message" ∧
    specGetMessage "" = "" ∧
    ("No message" : String) ≠ "" := by
  refine ⟨rfl, rfl, by decide⟩

/-- Claim C8 (amended): for every non-empty message string `getMessage`
returns the substring before the first opening brace, trimmed, falling back
to the original raw message if that yields an empty string (the empty message
instead yields `'No message'`); and on `"New ticket {foo}"` it returns
`"New ticket"` while `isTicketNotification` returns true. -/
theorem C8_message_amended (data : String) (h : data ≠ "") :
    getMessage data = specGetMessage data ∧
    getMessage "New ticket {foo}" = "New ticket" ∧
    isTicketNotification "New ticket {foo}" = true := by
  refine ⟨?_, by decide, by decide⟩
  simp [getMessage, specGetMessage, h]

/-- Witness for C8: the amended claim at a concrete non-empty message. -/
theorem C8_message_witness :
    getMessage "abc" = specGetMessage "abc" ∧
    getMessage "New ticket {foo}" = "New ticket" ∧
    isTicketNotification "New ticket {foo}" = true :=
  C8_message_amended "abc" (by decide)

/-- Claim C10: `fetchNotifications` with no token issues no request and only
sets `error := 'Authentication required'` and `loading := false`, leaving the
notification list and the unread count untouched. -/
theorem C10_no_token (silent : Bool) (s : NotificationState) :
    (fetchNotificationsStart none silent s).2 = [] ∧
    (fetchNotificationsStart none silent s).1.error = some "Authentication required" ∧
    (fetchNotificationsStart none silent s).1.loading = false ∧
    (fetchNotificationsStart none silent s).1.notifications = s.notifications ∧
    (fetchNotificationsStart none silent s).1.unreadCount = s.unreadCount :=
  ⟨rfl, rfl, rfl, rfl, rfl⟩

/-- The outcome of one underlying HTTP attempt of `getAllNotifications`. -/
inductive AttemptOutcome where
  | ok (resp : NotificationResponse)
  | fail (e : FailureKind)
deriving DecidableEq, Repr

/-- Whether an attempt failed. -/
def AttemptOutcome.isFail : AttemptOutcome → Bool
  | AttemptOutcome.ok _ => false
  | AttemptOutcome.fail _ => true

/-- What the retry pipeline finally emits. -/
inductive RetryEnd where
  | success (resp : NotificationResponse)
  | failure (e : FailureKind)
deriving DecidableEq, Repr

/-- The backoff delays produced by `delay: (error, retryCount) => timer(retryCount * 1000)`
when `k` retries happen: the `i`-th retry waits `i * 1000` ms. -/
def retryDelays (k : Nat) : List Nat :=
  (List.range k).map (fun i => (i + 1) * 1000)

/-- The rxjs `retry({count, delay})` loop: try the attempt at index `idx`;
on failure resubscribe while retries remain, else surface the last error.
`rem` is the number of retries still allowed. -/
def runRetryAux (attempts : Nat → AttemptOutcome) : Nat → Nat → RetryEnd × Nat
  | 0, idx =>
    match attempts idx with
    | AttemptOutcome.ok r => (RetryEnd.success r, idx)
    | AttemptOutcome.fail e => (RetryEnd.failure e, idx)
  | rem + 1, idx =>
    match attempts idx with
    | AttemptOutcome.ok r => (RetryEnd.success r, idx)
    | AttemptOutcome.fail _ => runRetryAux attempts rem (idx + 1)

/-- `getAllNotifications`' retry pipeline with `count := maxRetries` and the
linear backoff delays: the final outcome plus the delays that were waited. -/
def getAllWithRetry (attempts : Nat → AttemptOutcome) : RetryEnd × List Nat :=
  ((runRetryAux attempts maxRetries 0).1,
    retryDelays (runRetryAux attempts maxRetries 0).2)

/-- Helper: one unfolding of the retry loop when retries remain. -/
theorem runRetryAux_succ (attempts : Nat → AttemptOutcome) (rem idx : Nat) :
    runRetryAux attempts (rem + 1) idx =
      match attempts idx with
      | AttemptOutcome.ok r => (RetryEnd.success r, idx)
      | AttemptOutcome.fail _ => runRetryAux attempts rem (idx + 1) :=
  rfl

/-- Helper: the retry loop with no retries left surfaces the attempt outcome. -/
theorem runRetryAux_zero (attempts : Nat → AttemptOutcome) (idx : Nat) :
    runRetryAux attempts 0 idx =
      match attempts idx with
      | AttemptOutcome.ok r => (RetryEnd.success r, idx)
      | AttemptOutcome.fail e => (RetryEnd.failure e, idx) :=
  rfl

/-- Claim C7: a failing `listNotifications` request is retried up to
`maxRetries = 3` times with backoff delays `1s, 2s, 3s`; an error is surfaced
only when all four attempts failed (and it is the last attempt's error), and
an attempt that succeeds after `j` failures yields the response having waited
exactly the first `j` linear delays. -/
theorem C7_retry_backoff (attempts : Nat → AttemptOutcome) :
    (∀ e ds, getAllWithRetry attempts = (RetryEnd.failure e, ds) →
      ((attempts 0).isFail = true ∧ (attempts 1).isFail = true ∧
        (attempts 2).isFail = true ∧ attempts 3 = AttemptOutcome.fail e) ∧
      ds = [1000, 2000, 3000]) ∧
    (∀ j r, j ≤ maxRetries → (∀ i, i < j → (attempts i).isFail = true) →
      attempts j = AttemptOutcome.ok r →
      getAllWithRetry attempts = (RetryEnd.success r, retryDelays j)) := by
  have heval : getAllWithRetry attempts =
      ((runRetryAux attempts (2 + 1) 0).1, retryDelays (runRetryAux attempts (2 + 1) 0).2) :=
    rfl
  constructor
  · intro e ds h
    rw [heval] at h
    rw [runRetryAux_succ] at h
    cases h0 : attempts 0 with
    | ok r0 => rw [h0] at h; simp at h
    | fail e0 =>
      rw [h0] at h
      rw [show (2 : Nat) = 1 + 1 from rfl, runRetryAux_succ] at h
      cases h1 : attempts 1 with
      | ok r1 => rw [h1] at h; simp at h
      | fail e1 =>
        rw [h1] at h
        rw [runRetryAux_succ] at h
        cases h2 : attempts 2 with
        | ok r2 => rw [h2] at h; simp at h
        | fail e2 =>
          rw [h2] at h
          rw [runRetryAux_zero] at h
          cases h3 : attempts 3 with
          | ok r3 => rw [h3] at h; simp at h
          | fail e3 =>
            rw [h3] at h
            simp only [Prod.mk.injEq] at h
            obtain ⟨hend, hds⟩ := h
            cases hend
            refine ⟨⟨by simp [AttemptOutcome.isFail],
              by simp [AttemptOutcome.isFail],
              by simp [AttemptOutcome.isFail], rfl⟩, ?_⟩
            rw [← hds]
            rfl
  · intro j r hj hprev hok
    have hj3 : j ≤ 3 := hj
    interval_cases j
    · rw [heval, runRetryAux_succ, hok]
    · have h0 : (attempts 0).isFail = true := hprev 0 (by omega)
      cases h0e : attempts 0 with
      | ok r0 => rw [h0e] at h0; simp [AttemptOutcome.isFail] at h0
      | fail e0 =>
        rw [heval, runRetryAux_succ, h0e,
          show (2 : Nat) = 1 + 1 from rfl, runRetryAux_succ, hok]
    · have h0 : (attempts 0).isFail = true := hprev 0 (by omega)
      have h1 : (attempts 1).isFail = true := hprev 1 (by omega)
      cases h0e : attempts 0 with
      | ok r0 => rw [h0e] at h0; simp [AttemptOutcome.isFail] at h0
      | fail e0 =>
        cases h1e : attempts 1 with
        | ok r1 => rw [h1e] at h1; simp [AttemptOutcome.isFail] at h1
        | fail e1 =>
          rw [heval, runRetryAux_succ, h0e,
            show (2 : Nat) = 1 + 1 from rfl, runRetryAux_succ, h1e,
            runRetryAux_succ, hok]
    · have h0 : (attempts 0).isFail = true := hprev 0 (by omega)
      have h1 : (attempts 1).isFail = true := hprev 1 (by omega)
      have h2 : (attempts 2).isFail = true := hprev 2 (by omega)
      cases h0e : attempts 0 with
      | ok r0 => rw [h0e] at h0; simp [AttemptOutcome.isFail] at h0
      | fail e0 =>
        cases h1e : attempts 1 with
        | ok r1 => rw [h1e] at h1; simp [AttemptOutcome.isFail] at h1
        | fail e1 =>
          cases h2e : attempts 2 with
          | ok r2 => rw [h2e] at h2; simp [AttemptOutcome.isFail] at h2
          | fail e2 =>
            rw [heval, runRetryAux_succ, h0e,
              show (2 : Nat) = 1 + 1 from rfl, runRetryAux_succ, h1e,
              runRetryAux_succ, h2e, runRetryAux_zero, hok]

/-- A concrete response for the retry witness. -/
def respEx : NotificationResponse :=
  { responseData := [], success := true, unreadCount := none }

/-- A concrete attempt sequence that fails twice and then succeeds. -/
def twoFailAttempts : Nat → AttemptOutcome := fun i =>
  if i < 2 then AttemptOutcome.fail (FailureKind.http 503 "down") else AttemptOutcome.ok respEx

/-- Witness for C7: with two transient failures the pipeline succeeds on the
third attempt having waited the delays `1s, 2s`. -/
theorem C7_retry_witness :
    getAllWithRetry twoFailAttempts = (RetryEnd.success respEx, retryDelays 2) := by
  refine C7_retry_backoff twoFailAttempts |>.2 2 respEx (by decide) ?_ (by rfl)
  intro i hi
  match i, hi with
  | 0, _ => rfl
  | 1, _ => rfl

/-- Helper: with pairwise-distinct ids, deleting by a stored notification's id
removes exactly its unread contribution from the count. -/
theorem countUnread_filter_ne (t : Notification) :
    ∀ l : List Notification, (l.map (fun n => n.id)).Nodup → t ∈ l →
      countUnread (l.filter (fun n => !(n.id == t.id))) + (if t.read then 0 else 1) =
        countUnread l := by
  intro l
  induction l with
  | nil => intro _ h; cases h
  | cons a l ih =>
    intro hnd hmem
    rw [List.map_cons] at hnd
    have hnda := (List.nodup_cons.mp hnd).1
    have hndl : (l.map (fun n => n.id)).Nodup := (List.nodup_cons.mp hnd).2
    rcases List.mem_cons.mp hmem with heq | hmem'
    · subst heq
      have hfl : l.filter (fun n => !(n.id == t.id)) = l := by
        refine List.filter_eq_self.mpr ?_
        intro n hn
        simp only [Bool.not_eq_true', beq_eq_false_iff_ne]
        intro hEq
        exact hnda (by simpa [hEq] using (List.mem_map_of_mem (fun n => n.id) hn))
      cases hr : t.read <;>
        simp [countUnread, List.filter, hfl, hr]
    · have haid : (a.id == t.id) = false := by
        refine beq_eq_false_iff_ne.mpr ?_
        intro hEq
        exact hnda (by simpa [hEq] using (List.mem_map_of_mem (fun n => n.id) hmem'))
      have hrec := ih hndl hmem'
      cases hra : a.read <;> cases hrt : t.read <;>
        simp [countUnread, List.filter, haid, hra, hrt] at hrec ⊢ <;> omega

/-- Claim C9: each optimistic action updates the local state with a
recomputed (consistent) unread count and emits exactly its gateway call,
whose failure callback is exactly one silent refresh; `deleteNotification`
removes exactly the target id, keeps every other notification, and lowers
`unreadCount` by one exactly when the deleted notification was unread. -/
theorem C9_optimistic_actions (target : Notification) (s : NotificationState)
    (hnd : (s.notifications.map (fun n => n.id)).Nodup)
    (hmem : target ∈ s.notifications)
    (hinv : UnreadInv s) :
    ((markAsRead target s).1.unreadCount =
        countUnread (markAsRead target s).1.notifications ∧
      (markAsRead target s).2 = [Effect.apiMarkRead target.id] ∧
      markAsReadOnFailure = [Effect.refreshSilent]) ∧
    ((markAllAsRead s).1.unreadCount =
        countUnread (markAllAsRead s).1.notifications ∧
      (markAllAsRead s).2 = [Effect.apiMarkAllRead] ∧
      markAllAsReadOnFailure = [Effect.refreshSilent]) ∧
    ((deleteNotification target s).2 = [Effect.apiDelete target.id] ∧
      deleteNotificationOnFailure = [Effect.refreshSilent] ∧
      (∀ n ∈ (deleteNotification target s).1.notifications, n.id ≠ target.id) ∧
      (∀ n ∈ s.notifications, n.id ≠ target.id →
        n ∈ (deleteNotification target s).1.notifications) ∧
      (deleteNotification target s).1.unreadCount + (if target.read then 0 else 1) =
        s.unreadCount) := by
  refine ⟨⟨rfl, rfl, rfl⟩,
    ⟨by simp [markAllAsRead, countUnread_setAllRead], rfl, rfl⟩,
    rfl, rfl, ?_, ?_, ?_⟩
  · intro n hn
    have := (List.mem_filter.mp hn).2
    simpa using this
  · intro n hn hne
    refine List.mem_filter.mpr ⟨hn, ?_⟩
    simpa using hne
  · rw [hinv]
    exact countUnread_filter_ne target s.notifications hnd hmem

/-- An unread notification used for the C9 witness. -/
def delNotifEx : Notification :=
  { id := "9", message := "bye", date := 2, read := false,
    ntype := NType.system, nprio := NPriority.low }

/-- A consistent one-element state holding `delNotifEx` unread. -/
def delStateEx : NotificationState :=
  { notifications := [delNotifEx], loading := false, error := none,
    lastFetch := none, unreadCount := 1 }

/-- Witness for C9: deleting the unread `delNotifEx` from `delStateEx` lowers
the unread count by one and emits the delete call with a one-refresh
failure callback. -/
theorem C9_optimistic_witness :
    (deleteNotification delNotifEx delStateEx).1.unreadCount +
        (if delNotifEx.read then 0 else 1) = delStateEx.unreadCount ∧
    (deleteNotification delNotifEx delStateEx).2 = [Effect.apiDelete "9"] ∧
    deleteNotificationOnFailure = [Effect.refreshSilent] := by
  have h := C9_optimistic_actions delNotifEx delStateEx (by decide)
    (List.mem_singleton.mpr rfl) (by rfl)
  exact ⟨h.2.2.2.2.2.2, h.2.2.1, h.2.2.2.1⟩
